import Mathlib

/-!
Formal model of the `ada-v2-vision-assistant` relay:
`src/backend/ada.py` (the AI Session Adapter, class `AdaAgent`) and
`src/backend/server.py` (the Socket Gateway handlers).

The embedding is shallow: Python objects become Lean structures, payload
bytes become `List Nat`, stateful methods become explicit state-passing
functions, and the `connect()` async generator becomes a small-step
machine driven one receive at a time.  External behaviour that the
repository does not control (whether the remote `session.send` raises,
what messages the remote session produces for given open-call arguments)
is supplied by explicit environment parameters.
-/

namespace Ada

/-- A byte string payload, e.g. a JPEG frame. -/
abbrev Bytes := List Nat

/-- Inbound messages from the remote AI session are opaque to the
adapter; we model them as naturals. -/
abbrev Msg := Nat

/-- Mirrors `genai.Client(api_key=..., http_options={'api_version': 'v1alpha'})`
from `AdaAgent.__init__`. -/
structure Client where
  api_key : Option String
  api_version : String
deriving DecidableEq, Repr

/-- Mirrors `types.Blob(data=frame_data, mime_type="image/jpeg")`. -/
structure Blob where
  data : Bytes
  mime_type : String
deriving DecidableEq, Repr

/-- Mirrors `types.LiveClientRealtimeInput(media_chunks=[...])`. -/
structure LiveClientRealtimeInput where
  media_chunks : List Blob
deriving DecidableEq, Repr

/-- The state of one `AdaAgent` instance: the fields assigned in
`AdaAgent.__init__`.  The session handle is identified by a numeric id. -/
structure AdaAgent where
  client : Client
  model_id : String
  session : Option Nat
deriving DecidableEq, Repr

/-- Mirrors `AdaAgent.__init__`: builds the client from the environment
API key, fixes the model id, and leaves `session` unset. -/
def AdaAgent.mkInit (apiKey : Option String) : AdaAgent :=
  { client := { api_key := apiKey, api_version := "v1alpha" }
    model_id := "gemini-2.0-flash-exp"
    session := none }

/-- One invocation of `session.send`, recorded with the session id it was
sent on and the realtime input it carried. -/
structure Transmission where
  sid : Nat
  input : LiveClientRealtimeInput
deriving DecidableEq, Repr

/-- The realtime input that `send_frame` builds around a frame: exactly
one media chunk, tagged `image/jpeg`. -/
def jpegInput (frame_data : Bytes) : LiveClientRealtimeInput :=
  { media_chunks := [{ data := frame_data, mime_type := "image/jpeg" }] }

/-- The transmissions one `send_frame` call performs: one `session.send`
when a session handle is held, none otherwise. -/
def sendFrameSends (a : AdaAgent) (frame_data : Bytes) : List Transmission :=
  match a.session with
  | none => []
  | some sid => [{ sid := sid, input := jpegInput frame_data }]

/-- Whether the remote `session.send` raises is decided by the external
service, not by the adapter; an environment supplies that behaviour. -/
structure SendEnv where
  sendRaises : Nat → LiveClientRealtimeInput → Bool

/-- Result of one `send_frame` call: the agent state after the call, the
`session.send` invocations performed, and whether an exception escaped. -/
structure SendFrameResult where
  agent : AdaAgent
  sent : List Transmission
  raised : Bool
deriving DecidableEq, Repr

/-- Mirrors `AdaAgent.send_frame`: if `self.session` is set, awaits
`self.session.send` with a single `image/jpeg` blob holding `frame_data`
(an exception can only come from that external send); otherwise the body
is skipped entirely. -/
def AdaAgent.send_frame (env : SendEnv) (a : AdaAgent) (frame_data : Bytes) :
    SendFrameResult :=
  match a.session with
  | none => { agent := a, sent := [], raised := false }
  | some sid =>
      { agent := a
        sent := [{ sid := sid, input := jpegInput frame_data }]
        raised := env.sendRaises sid (jpegInput frame_data) }

/-- A send environment in which the remote never raises. -/
def quietEnv : SendEnv := { sendRaises := fun _ _ => false }

/-- Control position of one `connect()` generator body: `suspended` is
the cooperative suspension point at the head of
`async for message in session`, where the generator waits for the next
inbound message; `finished` means the loop exited and the generator
terminated (the `async with` block closed the underlying session). -/
inductive GenPhase where
  | suspended
  | finished
deriving DecidableEq, Repr

/-- One `connect()` generator: its phase together with the messages it
has yielded so far, in order. -/
structure ConnectGen where
  phase : GenPhase
  yielded : List Msg
deriving DecidableEq, Repr

/-- A `connect()` generator right after the session was opened and
assigned, before any message arrived. -/
def ConnectGen.start : ConnectGen := { phase := .suspended, yielded := [] }

/-- One receive of the `async for message in session` loop.  Input
`some m` means the session delivered message `m`: the loop body runs once
and yields `m`.  Input `none` means the stream ended: the loop exits and
the generator finishes.  A finished generator ignores all input and
yields nothing (it is not restartable).  The second component is the
message yielded by this step, if any. -/
def genStep (g : ConnectGen) (inp : Option Msg) : ConnectGen × Option Msg :=
  match g.phase, inp with
  | .suspended, some m =>
      ({ phase := .suspended, yielded := g.yielded ++ [m] }, some m)
  | .suspended, none => ({ phase := .finished, yielded := g.yielded }, none)
  | .finished, _ => (g, none)

/-- Drives the generator through a whole list of inbound messages, one
receive at a time. -/
def genDeliverAll (g : ConnectGen) : List Msg → ConnectGen
  | [] => g
  | m :: ms => genDeliverAll (genStep g (some m)).1 ms

/-- The messages the generator yields, step by step, while the inbound
messages arrive one at a time. -/
def genOutputs (g : ConnectGen) : List Msg → List Msg
  | [] => []
  | m :: ms =>
      (match (genStep g (some m)).2 with
        | some y => [y]
        | none => []) ++ genOutputs (genStep g (some m)).1 ms

/-- Global state of one adapter instance together with the remote side:
the agent fields, the set of sessions currently open at the remote, a
supply of fresh session ids, the `connect()` generators created so far
(each remembering the session it opened), and the log of `session.send`
invocations. -/
structure World where
  agent : AdaAgent
  openSessions : List Nat
  nextSid : Nat
  gens : List (Nat × ConnectGen)
  sent : List Transmission
deriving DecidableEq, Repr

/-- Events driving the adapter.  `connectStart` is the first advance of a
new `connect()` generator: it opens a session and assigns `self.session`
before reaching the message loop.  `deliver g m` advances generator `g`
with inbound message `m`; `streamEnd g` ends the stream of generator `g`,
whose `async with` block then closes its session.  `sendFrame` is one
`send_frame` call. -/
inductive Ev where
  | connectStart
  | deliver (g : Nat) (m : Msg)
  | streamEnd (g : Nat)
  | sendFrame (frame_data : Bytes)
deriving DecidableEq, Repr

/-- One step of the adapter model.  `none` means the event is not
enabled (e.g. delivering to a generator that already finished). -/
def step (w : World) : Ev → Option World
  | .connectStart =>
      some { agent := { w.agent with session := some w.nextSid }
             openSessions := w.nextSid :: w.openSessions
             nextSid := w.nextSid + 1
             gens := w.gens ++ [(w.nextSid, ConnectGen.start)]
             sent := w.sent }
  | .deliver g m =>
      match w.gens[g]? with
      | some p =>
          if p.2.phase = .suspended then
            some { w with gens := w.gens.set g (p.1, (genStep p.2 (some m)).1) }
          else none
      | none => none
  | .streamEnd g =>
      match w.gens[g]? with
      | some p =>
          if p.2.phase = .suspended then
            some { w with
                   gens := w.gens.set g (p.1, (genStep p.2 none).1)
                   openSessions := w.openSessions.erase p.1 }
          else none
      | none => none
  | .sendFrame frame_data =>
      some { w with sent := w.sent ++ sendFrameSends w.agent frame_data }

/-- Runs a trace of events from a world, failing if any event is not
enabled. -/
def run (w : World) : List Ev → Option World
  | [] => some w
  | e :: es =>
      match step w e with
      | some w2 => run w2 es
      | none => none

/-- The world of a freshly constructed `AdaAgent`: no session assigned,
nothing open, nothing sent. -/
def initWorld (apiKey : Option String) : World :=
  { agent := AdaAgent.mkInit apiKey
    openSessions := []
    nextSid := 0
    gens := []
    sent := [] }

/-- Basic well-formedness of a world: every open session id was drawn
from the fresh-id supply. -/
def SidsOk (w : World) : Prop :=
  ∀ s ∈ w.openSessions, s < w.nextSid

/-- The world reached from a fresh adapter by one `connect()` start: the
session is open and assigned, the generator has yielded nothing yet. -/
def staleWorld : World :=
  { agent := { client := { api_key := some "k", api_version := "v1alpha" }
               model_id := "gemini-2.0-flash-exp"
               session := some 0 }
    openSessions := [0]
    nextSid := 1
    gens := [(0, ConnectGen.start)]
    sent := [] }

/-- The Python dict literal `config` built inside `connect()`. -/
abbrev Config := List (String × List String)

/-- Mirrors the line
`config = ... registration_ids: vision, audio ...` of `connect()`. -/
def connectConfig : Config := [("registration_ids", ["vision", "audio"])]

/-- The arguments `connect()` passes to `client.aio.live.connect`: the
fixed model id and the registration configuration. -/
def connectOpenArgs (a : AdaAgent) : String × Config :=
  (a.model_id, connectConfig)

/-- What messages the remote session produces for given open-call
arguments is decided by the external service; an environment supplies
that behaviour. -/
structure SessionEnv where
  sessionMsgs : String → Config → List Msg

/-- The messages one `connect()` generator yields when the session is
opened with the given model id and configuration under `env`. -/
def connectYieldsWith (env : SessionEnv) (model : String) (cfg : Config) :
    List Msg :=
  genOutputs ConnectGen.start (env.sessionMsgs model cfg)

/-- The messages one `connect()` generator of agent `a` yields under
`env`, with the open-call arguments the code actually passes. -/
def connectYields (env : SessionEnv) (a : AdaAgent) : List Msg :=
  connectYieldsWith env (connectOpenArgs a).1 (connectOpenArgs a).2

/-- A session environment in which the remote honours the configuration:
it answers `[7]` exactly when opened with the configuration that
`connect()` builds, and stays silent otherwise. -/
def cfgSensitiveEnv : SessionEnv :=
  { sessionMsgs := fun _ cfg => if cfg = connectConfig then [7] else [] }

end Ada

namespace Server

open Ada

/-- An observable side effect of a gateway handler; the implemented
handlers only print log lines. -/
inductive Effect where
  | log (line : String)
deriving DecidableEq, Repr

/-- Mirrors the `connect` event handler of `server.py`: prints one line
and touches nothing else.  The handler is given the adapter world to make
the absence of any other state change expressible. -/
def connectHandler (w : World) (sid : String)
    (environ : List (String × String)) : World × List Effect :=
  (w, [.log ("Neural Link Established: " ++ sid)])

/-- Mirrors the `disconnect` event handler of `server.py`: prints one
line; no cleanup of any AI session. -/
def disconnectHandler (w : World) (sid : String) : World × List Effect :=
  (w, [.log ("Neural Link Severed: " ++ sid)])

/-- Mirrors the `vision_frame` event handler of `server.py`: the body is
only `pass`. -/
def vision_frame (w : World) (sid : String) (data : Bytes) :
    World × List Effect :=
  (w, [])

/-- Mirrors the `voice_input` event handler of `server.py`: the body is
only `pass`. -/
def voice_input (w : World) (sid : String) (data : Bytes) :
    World × List Effect :=
  (w, [])

end Server

open Ada

/-- Unfolding of `genStep` at a suspended generator receiving a
message. -/
theorem genStep_suspended_some (g : ConnectGen) (h : g.phase = .suspended)
    (m : Msg) :
    genStep g (some m) =
      ({ phase := .suspended, yielded := g.yielded ++ [m] }, some m) := by
  unfold genStep; rw [h]

/-- Unfolding of `genStep` at a suspended generator whose stream ends. -/
theorem genStep_suspended_none (g : ConnectGen) (h : g.phase = .suspended) :
    genStep g none = ({ phase := .finished, yielded := g.yielded }, none) := by
  unfold genStep; rw [h]

/-- Unfolding of `genStep` at a finished generator: any input is
ignored. -/
theorem genStep_finished (g : ConnectGen) (h : g.phase = .finished)
    (inp : Option Msg) : genStep g inp = (g, none) := by
  cases inp <;> (unfold genStep; rw [h])

/-- Driving a suspended generator through a message list keeps it
suspended and appends the messages to its yield log. -/
theorem genDeliverAll_suspended (msgs : List Msg) :
    ∀ g : ConnectGen, g.phase = .suspended →
      genDeliverAll g msgs =
        { phase := .suspended, yielded := g.yielded ++ msgs } := by
  induction msgs with
  | nil =>
      intro g h
      cases g with
      | mk p y => simp only at h; subst h; simp [genDeliverAll]
  | cons m ms ih =>
      intro g h
      rw [genDeliverAll, genStep_suspended_some g h m]
      rw [ih _ rfl]
      simp

/-- A suspended generator yields exactly the messages it receives. -/
theorem genOutputs_suspended (msgs : List Msg) :
    ∀ g : ConnectGen, g.phase = .suspended → genOutputs g msgs = msgs := by
  induction msgs with
  | nil => intro g _; rfl
  | cons m ms ih =>
      intro g h
      rw [genOutputs, genStep_suspended_some g h m]
      show [m] ++
          genOutputs { phase := GenPhase.suspended, yielded := g.yielded ++ [m] }
            ms = m :: ms
      rw [ih { phase := GenPhase.suspended, yielded := g.yielded ++ [m] } rfl]
      rfl

/-- A step either assigns the fresh session id (on `connectStart`) or
leaves the `session` field untouched. -/
theorem step_session (w : World) (e : Ev) (w2 : World)
    (h : step w e = some w2) :
    w2.agent.session = some w.nextSid ∨
      w2.agent.session = w.agent.session := by
  cases e with
  | connectStart =>
      left
      simp only [step, Option.some.injEq] at h
      rw [← h]
  | deliver g m =>
      right
      simp only [step] at h
      split at h
      · split at h
        · simp only [Option.some.injEq] at h
          rw [← h]
        · exact absurd h (by simp)
      · exact absurd h (by simp)
  | streamEnd g =>
      right
      simp only [step] at h
      split at h
      · split at h
        · simp only [Option.some.injEq] at h
          rw [← h]
        · exact absurd h (by simp)
      · exact absurd h (by simp)
  | sendFrame frame_data =>
      right
      simp only [step, Option.some.injEq] at h
      rw [← h]

/-- Once some session handle is assigned, every later reachable world
still has one assigned: nothing ever resets `self.session` to `None`. -/
theorem run_session_isSome (trace : List Ev) :
    ∀ w w2 : World, run w trace = some w2 →
      (w.agent.session.isSome ∨ Ev.connectStart ∈ trace) →
      w2.agent.session.isSome := by
  induction trace with
  | nil =>
      intro w w2 h hs
      simp only [run, Option.some.injEq] at h
      subst h
      simpa using hs
  | cons e es ih =>
      intro w w2 h hs
      simp only [run] at h
      cases hw : step w e with
      | none => rw [hw] at h; exact absurd h (by simp)
      | some w1 =>
          rw [hw] at h
          rcases step_session w e w1 hw with h1 | h1
          · exact ih w1 w2 h (Or.inl (by simp [h1]))
          · rcases hs with hs | hs
            · exact ih w1 w2 h (Or.inl (by rw [h1]; exact hs))
            · rcases List.mem_cons.mp hs with rfl | hs
              · simp only [step, Option.some.injEq] at hw
                exact ih w1 w2 h (Or.inl (by rw [← hw]; simp))
              · exact ih w1 w2 h (Or.inr hs)

/-- Every enabled step preserves `SidsOk`. -/
theorem step_sidsOk (w : World) (e : Ev) (w2 : World)
    (h : step w e = some w2) (hw : SidsOk w) : SidsOk w2 := by
  cases e with
  | connectStart =>
      simp only [step, Option.some.injEq] at h
      subst h
      intro s hs
      simp only [List.mem_cons] at hs
      rcases hs with rfl | hs
      · exact Nat.lt_succ_self _
      · exact Nat.lt_succ_of_lt (hw s hs)
  | deliver g m =>
      simp only [step] at h
      split at h
      · split at h
        · simp only [Option.some.injEq] at h
          subst h
          exact hw
        · exact absurd h (by simp)
      · exact absurd h (by simp)
  | streamEnd g =>
      simp only [step] at h
      split at h
      · split at h
        · simp only [Option.some.injEq] at h
          subst h
          intro s hs
          exact hw s (List.mem_of_mem_erase hs)
        · exact absurd h (by simp)
      · exact absurd h (by simp)
  | sendFrame frame_data =>
      simp only [step, Option.some.injEq] at h
      subst h
      exact hw

/-- Every reachable world satisfies `SidsOk`. -/
theorem run_sidsOk (trace : List Ev) :
    ∀ w w2 : World, run w trace = some w2 → SidsOk w → SidsOk w2 := by
  induction trace with
  | nil =>
      intro w w2 h hw
      simp only [run, Option.some.injEq] at h
      subst h
      exact hw
  | cons e es ih =>
      intro w w2 h hw
      simp only [run] at h
      cases hs : step w e with
      | none => rw [hs] at h; exact absurd h (by simp)
      | some w1 =>
          rw [hs] at h
          exact ih w1 w2 h (step_sidsOk w e w1 hs hw)

/-- C1: with an open session `sid`, `send_frame frame_data` performs
exactly one `session.send`, on that session, carrying exactly one media
chunk whose MIME type is `image/jpeg` and whose data is `frame_data`
unmodified. -/
theorem send_frame_open_transmits_jpeg (env : SendEnv) (a : AdaAgent)
    (frame_data : Bytes) (sid : Nat) (h : a.session = some sid) :
    (AdaAgent.send_frame env a frame_data).sent =
      [{ sid := sid,
         input := { media_chunks :=
           [{ data := frame_data, mime_type := "image/jpeg" }] } }] := by
  simp [AdaAgent.send_frame, h, jpegInput]

/-- Witness for C1: a concrete agent holding session 0 and the JPEG
start-of-image payload `[255, 216]`. -/
theorem send_frame_open_transmits_jpeg_witness :
    (AdaAgent.mk (Client.mk (some "k") "v1alpha") "gemini-2.0-flash-exp"
        (some 0)).session = some 0 ∧
    (AdaAgent.send_frame quietEnv
        (AdaAgent.mk (Client.mk (some "k") "v1alpha") "gemini-2.0-flash-exp"
          (some 0)) [255, 216]).sent =
      [{ sid := 0,
         input := { media_chunks :=
           [{ data := [255, 216], mime_type := "image/jpeg" }] } }] :=
  ⟨rfl,
   send_frame_open_transmits_jpeg quietEnv
     (AdaAgent.mk (Client.mk (some "k") "v1alpha") "gemini-2.0-flash-exp"
       (some 0)) [255, 216] 0 rfl⟩

/-- C2: with no open session, `send_frame` performs no `session.send`,
raises nothing, and leaves the agent unchanged, for every payload and
every behaviour of the remote send. -/
theorem send_frame_no_session_noop (env : SendEnv) (a : AdaAgent)
    (frame_data : Bytes) (h : a.session = none) :
    AdaAgent.send_frame env a frame_data =
      { agent := a, sent := [], raised := false } := by
  simp [AdaAgent.send_frame, h]

/-- Witness for C2: a freshly initialised agent (session unset) with the
JPEG start-of-image payload, under an environment in which any actual
send would raise. -/
theorem send_frame_no_session_noop_witness :
    (AdaAgent.mkInit (some "k")).session = none ∧
    AdaAgent.send_frame (SendEnv.mk (fun _ _ => true))
        (AdaAgent.mkInit (some "k")) [255, 216] =
      { agent := AdaAgent.mkInit (some "k"), sent := [], raised := false } :=
  ⟨rfl,
   send_frame_no_session_noop (SendEnv.mk (fun _ _ => true))
     (AdaAgent.mkInit (some "k")) [255, 216] rfl⟩

/-- C10: `send_frame` never mutates the agent: the `client`, `model_id`
and `session` fields are the same after the call as before it, whether or
not a session is open. -/
theorem send_frame_preserves_agent (env : SendEnv) (a : AdaAgent)
    (frame_data : Bytes) :
    (AdaAgent.send_frame env a frame_data).agent.client = a.client ∧
    (AdaAgent.send_frame env a frame_data).agent.model_id = a.model_id ∧
    (AdaAgent.send_frame env a frame_data).agent.session = a.session := by
  cases h : a.session <;> simp [AdaAgent.send_frame, h]

/-- C5: for every sequence of inbound messages, the `connect()` generator
yields exactly those messages, one per receive, in arrival order
(conjunct 1); it remains at its suspension point as long as the
underlying stream is open (conjunct 2); when the stream ends it finishes
having yielded exactly the arrived messages (conjunct 3); and a finished
generator ignores any further input and never yields again, so the
sequence is not restartable (conjunct 4). -/
theorem connect_stream_yields_in_order (msgs : List Msg) (inp : Option Msg) :
    genOutputs ConnectGen.start msgs = msgs ∧
    genDeliverAll ConnectGen.start msgs =
      { phase := .suspended, yielded := msgs } ∧
    (genStep (genDeliverAll ConnectGen.start msgs) none).1 =
      { phase := .finished, yielded := msgs } ∧
    genStep { phase := .finished, yielded := msgs } inp =
      ({ phase := .finished, yielded := msgs }, none) := by
  refine ⟨genOutputs_suspended msgs ConnectGen.start rfl, ?_, ?_, ?_⟩
  · simpa [ConnectGen.start] using
      genDeliverAll_suspended msgs ConnectGen.start rfl
  · rw [genDeliverAll_suspended msgs ConnectGen.start rfl,
      genStep_suspended_none _ rfl]
    simp [ConnectGen.start]
  · exact genStep_finished _ rfl inp

/-- Counterexample to C3: starting a second `connect()` while the first
generator is still suspended leaves TWO sessions open at once, because
each `connect()` call opens its own session and nothing closes or reuses
the previous one.  After the trace `[connectStart, connectStart]` from a
fresh adapter, sessions 0 and 1 are both open. -/
theorem double_connect_two_open_sessions :
    (run (initWorld (some "k")) [Ev.connectStart, Ev.connectStart]).map
        (fun w => w.openSessions) = some [1, 0] := rfl

/-- C3 (amended): repeated `connect()` calls DO create additional
sessions rather than reusing the existing one: from every reachable
world, starting another `connect()` opens a brand-new session whose id is
not among the currently open ones, growing the open-session set by one.
The at-most-one-session invariant is intended but unenforced. -/
theorem connect_opens_fresh_session (apiKey : Option String)
    (trace : List Ev) (w : World)
    (h : run (initWorld apiKey) trace = some w) :
    ∃ w2, step w Ev.connectStart = some w2 ∧
      w2.openSessions = w.nextSid :: w.openSessions ∧
      w.nextSid ∉ w.openSessions ∧
      w2.agent.session = some w.nextSid := by
  have hok : SidsOk w :=
    run_sidsOk trace (initWorld apiKey) w h (by intro s hs; cases hs)
  refine ⟨_, rfl, rfl, ?_, rfl⟩
  intro hmem
  exact absurd (hok w.nextSid hmem) (Nat.lt_irrefl _)

/-- Witness for C3 (amended): the empty trace from a fresh adapter. -/
theorem connect_opens_fresh_session_witness :
    run (initWorld (some "k")) [] = some (initWorld (some "k")) ∧
    ∃ w2, step (initWorld (some "k")) Ev.connectStart = some w2 ∧
      w2.openSessions = (initWorld (some "k")).nextSid ::
        (initWorld (some "k")).openSessions ∧
      (initWorld (some "k")).nextSid ∉ (initWorld (some "k")).openSessions ∧
      w2.agent.session = some (initWorld (some "k")).nextSid :=
  ⟨rfl, connect_opens_fresh_session (some "k") [] (initWorld (some "k")) rfl⟩

/-- C9: in every reachable world of a run that started at least one
`connect()`, the `session` field still holds a handle (it is assigned
during `connect()` and never reset, even after `streamEnd` closed the
underlying session), so `send_frame` still takes the transmit branch
there; and immediately after the open-and-assign step of a new
`connect()`, the session is already assigned while that generator has
yielded nothing yet (assignment happens before the first yield). -/
theorem connect_session_assigned_never_reset (apiKey : Option String)
    (trace : List Ev) (w : World)
    (h : run (initWorld apiKey) trace = some w)
    (hc : Ev.connectStart ∈ trace) :
    (∃ sid, w.agent.session = some sid ∧
      ∀ env frame_data,
        (AdaAgent.send_frame env w.agent frame_data).sent =
          [{ sid := sid, input := jpegInput frame_data }]) ∧
    (step w Ev.connectStart).map
        (fun w2 => (w2.agent.session,
          w2.gens.getLast?.map (fun p => p.2.yielded)))
      = some (some w.nextSid, some []) := by
  constructor
  · have hs : w.agent.session.isSome :=
      run_session_isSome trace (initWorld apiKey) w h (Or.inr hc)
    rcases Option.isSome_iff_exists.mp hs with ⟨sid, hsid⟩
    refine ⟨sid, hsid, fun env frame_data => ?_⟩
    simp [AdaAgent.send_frame, hsid]
  · simp [step, List.getLast?_concat, ConnectGen.start]

/-- Witness for C9: one `connect()` start, evaluated concretely. -/
theorem connect_session_assigned_never_reset_witness :
    run (initWorld (some "k")) [Ev.connectStart] = some staleWorld ∧
    Ev.connectStart ∈ [Ev.connectStart] ∧
    ((∃ sid, staleWorld.agent.session = some sid ∧
        ∀ env frame_data,
          (AdaAgent.send_frame env staleWorld.agent frame_data).sent =
            [{ sid := sid, input := jpegInput frame_data }]) ∧
      (step staleWorld Ev.connectStart).map
          (fun w2 => (w2.agent.session,
            w2.gens.getLast?.map (fun p => p.2.yielded)))
        = some (some staleWorld.nextSid, some [])) :=
  ⟨rfl, by simp,
   connect_session_assigned_never_reset (some "k") [Ev.connectStart]
     staleWorld rfl (by simp)⟩

/-- C7: the gateway `connect` handler changes no state and has exactly
one side effect, its log line; the `disconnect` handler likewise only
logs and performs no cleanup of any AI session. -/
theorem gateway_lifecycle_handlers_log_only (w : World) (sid : String)
    (environ : List (String × String)) :
    Server.connectHandler w sid environ =
      (w, [Server.Effect.log ("Neural Link Established: " ++ sid)]) ∧
    Server.disconnectHandler w sid =
      (w, [Server.Effect.log ("Neural Link Severed: " ++ sid)]) :=
  ⟨rfl, rfl⟩

/-- C4: the gateway `vision_frame` and `voice_input` handlers are
no-ops: for every session id, every payload and every adapter world they
change nothing, produce no effect, and their result does not depend on
the payload at all. -/
theorem vision_voice_handlers_are_noops (w : World) (sid : String)
    (data : Bytes) :
    Server.vision_frame w sid data = (w, []) ∧
    Server.voice_input w sid data = (w, []) :=
  ⟨rfl, rfl⟩

/-- C8: a gateway `connect` immediately followed by `disconnect` leaves
the adapter world exactly as it was; in particular the pair opens no AI
session, so it cannot leak one. -/
theorem connect_disconnect_leaks_no_session (w : World) (sid : String)
    (environ : List (String × String)) :
    (Server.disconnectHandler
        (Server.connectHandler w sid environ).1 sid).1 = w ∧
    (Server.disconnectHandler
        (Server.connectHandler w sid environ).1 sid).1.openSessions =
      w.openSessions :=
  ⟨rfl, rfl⟩

/-- Counterexample to C6: the registration configuration is NOT unused.
`connect()` passes it as the `config` argument of the session-open call,
so its contents do reach the session being opened: under a remote that
honours the configuration, the stream `connect()` yields differs from the
stream an empty configuration would give. -/
theorem registration_config_reaches_open_call :
    (connectOpenArgs (AdaAgent.mkInit (some "k"))).2 =
      [("registration_ids", ["vision", "audio"])] ∧
    connectYields cfgSensitiveEnv (AdaAgent.mkInit (some "k")) = [7] ∧
    connectYieldsWith cfgSensitiveEnv "gemini-2.0-flash-exp" [] = [] ∧
    connectYields cfgSensitiveEnv (AdaAgent.mkInit (some "k")) ≠
      connectYieldsWith cfgSensitiveEnv "gemini-2.0-flash-exp" [] := by
  refine ⟨rfl, by decide, by decide, by decide⟩

/-- C6 (amended): `connect()` builds the registration configuration and
forwards it, once, into the external session-open call; no other code in
the repository reads it — in particular the frame data `send_frame`
transmits depends only on the session field and the payload, never on the
configuration. -/
theorem registration_config_forwarded_only (a b : AdaAgent)
    (frame_data : Bytes) (h : a.session = b.session) :
    (connectOpenArgs a).2 = connectConfig ∧
    sendFrameSends a frame_data = sendFrameSends b frame_data := by
  refine ⟨rfl, ?_⟩
  unfold sendFrameSends
  rw [h]

/-- Witness for C6 (amended): two agents with different clients and
model ids but the same (absent) session. -/
theorem registration_config_forwarded_only_witness :
    (AdaAgent.mkInit (some "k")).session =
      (AdaAgent.mk (Client.mk none "v1alpha") "other-model" none).session ∧
    ((connectOpenArgs (AdaAgent.mkInit (some "k"))).2 = connectConfig ∧
      sendFrameSends (AdaAgent.mkInit (some "k")) [255, 216] =
        sendFrameSends (AdaAgent.mk (Client.mk none "v1alpha") "other-model"
          none) [255, 216]) :=
  ⟨rfl,
   registration_config_forwarded_only (AdaAgent.mkInit (some "k"))
     (AdaAgent.mk (Client.mk none "v1alpha") "other-model" none)
     [255, 216] rfl⟩
